import Mathlib

/-!
Verification development for the socialMediaPostingWeb backend.

This file gives a shallow embedding, in Lean 4, of the core of the backend:
the persona-injection engine (`GenerationService._inject_customer_info` and
`_format_customer_section`), the provider factory (`ProviderFactory`), the
credential-resolution helpers of the three orchestrator variants, the text
generation orchestrator (`GenerationService.generate_text`), the OCR
orchestrator (`OCRService.process_image`), the BFL Flux polling loop
(`BFLFluxProvider._poll_for_result` / `generate_image`), and the
model-configuration endpoints (`create_model_config` / `update_model_config`).

Python dictionaries are modelled as association lists, database tables as
lists of records, SQL lookups as `List.find?` / `List.filter`, exceptions as
`Except`, and external effects (decryption, vendor HTTP calls, base64,
persistence) as function parameters.  All definitions are executable.
-/

namespace SocialMedia

/-! ## Data model: persona categories (models/customer_info.py) -/

/-- The fixed `CustomerCategory` enumeration (eleven tags). -/
inductive CustomerCategory where
  | pain
  | pleasures
  | desires
  | relatableTruths
  | customerPersona
  | artistPersona
  | brand
  | inGroupsAndOutGroups
  | punPrimer
  | usp
  | roles
deriving DecidableEq, Repr

/-- The string value of each enum member, as in the Python `str, enum.Enum`. -/
def CustomerCategory.value : CustomerCategory → String
  | .pain => "Pain"
  | .pleasures => "Pleasures"
  | .desires => "Desires"
  | .relatableTruths => "Relatable Truths"
  | .customerPersona => "Customer Persona"
  | .artistPersona => "Artist Persona"
  | .brand => "Brand"
  | .inGroupsAndOutGroups => "In Groups and Out Groups"
  | .punPrimer => "Pun Primer"
  | .usp => "USP"
  | .roles => "Roles"

/-- All enum members in declaration order (Python iterates an Enum in
declaration order). -/
def allCustomerCategories : List CustomerCategory :=
  [.pain, .pleasures, .desires, .relatableTruths, .customerPersona,
   .artistPersona, .brand, .inGroupsAndOutGroups, .punPrimer, .usp, .roles]

/-- `RANDOM_CATEGORIES`: one random pair is picked during injection. -/
def RANDOM_CATEGORIES : List CustomerCategory :=
  [.pain, .pleasures, .desires, .relatableTruths]

/-- `ALL_PAIRS_CATEGORIES`: all pairs are included during injection. -/
def ALL_PAIRS_CATEGORIES : List CustomerCategory :=
  [.customerPersona, .artistPersona, .brand, .inGroupsAndOutGroups]

/-- `IGNORED_CATEGORIES`: skipped entirely during injection. -/
def IGNORED_CATEGORIES : List CustomerCategory :=
  [.punPrimer, .usp, .roles]

/-- One `{prompt, response}` pair from a `CustomerInfo.details` JSON array
(`pair.get("prompt", "")` / `pair.get("response", "")` read the two keys,
defaulting to the empty string). -/
structure PromptResponsePair where
  prompt : String
  response : String
deriving DecidableEq, Repr

/-- A row of the `customer_info` table: owning user, category, and the
ordered `details` array of prompt/response pairs. -/
structure CustomerInfoRec where
  userId : Nat
  category : CustomerCategory
  details : List PromptResponsePair
deriving DecidableEq, Repr

/-- The dict `{cat.value: cat for cat in CustomerCategory}` as a lookup. -/
def categoryOfValue (s : String) : Option CustomerCategory :=
  allCustomerCategories.find? (fun c => c.value = s)

/-! ## Persona injection engine (services/generation_service.py) -/

/-- `GenerationService._format_customer_section`: a bounded text block with an
opening marker line, one Prompt/Response line pair per pair, and a closing
marker line, joined by newlines. -/
def formatCustomerSection (categoryName : String)
    (pairs : List PromptResponsePair) : String :=
  String.intercalate "\n"
    (("### Customer " ++ categoryName ++ " ###") ::
      (pairs.flatMap fun p =>
        ["Prompt: " ++ p.prompt, "Response: " ++ p.response]) ++
      ["### End Customer " ++ categoryName ++ " ###"])

/-- The per-record body of the injection loop: skip empty `details`; pick one
pair (via the `random.choice` oracle `pick`) for `RANDOM_CATEGORIES`; include
all pairs for `ALL_PAIRS_CATEGORIES`; skip anything else. -/
def sectionForRecord (pick : List PromptResponsePair → PromptResponsePair)
    (ci : CustomerInfoRec) : Option String :=
  if ci.details = [] then
    none
  else if ci.category ∈ RANDOM_CATEGORIES then
    some (formatCustomerSection ci.category.value [pick ci.details])
  else if ci.category ∈ ALL_PAIRS_CATEGORIES then
    some (formatCustomerSection ci.category.value ci.details)
  else
    none

/-- The `enabled_enums` computation: keys with a true flag, mapped through
`category_map`, dropping unknown names and `IGNORED_CATEGORIES`. -/
def enabledEnums (selectedCustomers : List (String × Bool)) :
    List CustomerCategory :=
  ((selectedCustomers.filter (fun e => e.2)).map Prod.fst).filterMap
    (fun catName =>
      match categoryOfValue catName with
      | some catEnum =>
          if catEnum ∈ IGNORED_CATEGORIES then none else some catEnum
      | none => none)

/-- The loaded records (the SQL query filtered on `user_id` and
`category.in_(enabled_enums)`, in table order) with their categories kept
alongside the formatted section of each record. -/
def injectedTaggedSections
    (pick : List PromptResponsePair → PromptResponsePair)
    (store : List CustomerInfoRec) (userId : Nat)
    (enums : List CustomerCategory) : List (CustomerCategory × String) :=
  (store.filter (fun ci => ci.userId == userId && decide (ci.category ∈ enums))).filterMap
    (fun ci => (sectionForRecord pick ci).map (fun s => (ci.category, s)))

/-- `GenerationService._inject_customer_info`.  `pick` is the
`random.choice` oracle; `store` is the `customer_info` table;
`selectedCustomers` is the `selected_customers` dict as an association
list. -/
def injectCustomerInfo
    (pick : List PromptResponsePair → PromptResponsePair)
    (store : List CustomerInfoRec) (userId : Nat)
    (promptTemplate : String)
    (selectedCustomers : List (String × Bool)) : String :=
  if selectedCustomers = [] then
    promptTemplate
  else
    let enabledCategories :=
      (selectedCustomers.filter (fun e => e.2)).map Prod.fst
    if enabledCategories = [] then
      promptTemplate
    else
      let enums := enabledCategories.filterMap
        (fun catName =>
          match categoryOfValue catName with
          | some catEnum =>
              if catEnum ∈ IGNORED_CATEGORIES then none else some catEnum
          | none => none)
      if enums = [] then
        promptTemplate
      else
        let injectedSections :=
          (injectedTaggedSections pick store userId enums).map Prod.snd
        if injectedSections = [] then
          promptTemplate
        else
          promptTemplate ++ "\n\n" ++
            String.intercalate "\n\n" injectedSections

/-- Collapsed form of the injection engine: all early returns produce the
unchanged template exactly when the enabled-enum list or the section list is
empty. -/
def renderCore (pick : List PromptResponsePair → PromptResponsePair)
    (store : List CustomerInfoRec) (userId : Nat)
    (promptTemplate : String) (enums : List CustomerCategory) : String :=
  if enums = [] then
    promptTemplate
  else if (injectedTaggedSections pick store userId enums).map Prod.snd = [] then
    promptTemplate
  else
    promptTemplate ++ "\n\n" ++ String.intercalate "\n\n"
      ((injectedTaggedSections pick store userId enums).map Prod.snd)

theorem enabledEnums_nil_of_no_enabled (sel : List (String × Bool))
    (h : (sel.filter (fun e => e.2)).map Prod.fst = []) :
    enabledEnums sel = [] := by
  unfold enabledEnums
  rw [h]
  rfl

theorem categoryOfValue_value (c : CustomerCategory) :
    categoryOfValue c.value = some c := by
  cases c <;> rfl

theorem injectedTaggedSections_cons
    (pick : List PromptResponsePair → PromptResponsePair)
    (a : CustomerInfoRec) (as : List CustomerInfoRec) (userId : Nat)
    (enums : List CustomerCategory) :
    injectedTaggedSections pick (a :: as) userId enums =
      (if a.userId == userId && decide (a.category ∈ enums) then
        match sectionForRecord pick a with
        | some s => [(a.category, s)]
        | none => []
      else []) ++ injectedTaggedSections pick as userId enums := by
  unfold injectedTaggedSections
  rw [List.filter_cons]
  by_cases h : (a.userId == userId && decide (a.category ∈ enums)) = true
  · rw [if_pos h, if_pos h, List.filterMap_cons]
    cases sectionForRecord pick a <;> simp
  · rw [if_neg h, if_neg h, List.nil_append]

theorem injectedTaggedSections_filter_nil
    (pick : List PromptResponsePair → PromptResponsePair)
    (as : List CustomerInfoRec) (userId : Nat)
    (enums : List CustomerCategory) (c : CustomerCategory)
    (h : ∀ b ∈ as, b.userId = userId → b.category ≠ c) :
    (injectedTaggedSections pick as userId enums).filter
      (fun e => decide (e.1 = c)) = [] := by
  induction as with
  | nil => rfl
  | cons a as ih =>
    rw [injectedTaggedSections_cons, List.filter_append]
    rw [ih (fun b hb => h b (List.mem_cons_of_mem a hb))]
    by_cases hq : (a.userId == userId && decide (a.category ∈ enums)) = true
    · rw [if_pos hq]
      have huser : a.userId = userId := by
        have := (Bool.and_eq_true _ _).mp hq
        exact eq_of_beq this.1
      have hne : a.category ≠ c := h a (List.mem_cons_self a as) huser
      cases hsec : sectionForRecord pick a with
      | none => simp
      | some s => simp [hne]
    · rw [if_neg hq]
      rfl

theorem injectedTaggedSections_filter_singleton
    (pick : List PromptResponsePair → PromptResponsePair)
    (store : List CustomerInfoRec) (userId : Nat)
    (enums : List CustomerCategory) (c : CustomerCategory)
    (ci : CustomerInfoRec)
    (hci : ci ∈ store) (huser : ci.userId = userId) (hcat : ci.category = c)
    (hmem : c ∈ enums)
    (huniq : store.Pairwise
      (fun a b => a.userId = b.userId → a.category ≠ b.category)) :
    (injectedTaggedSections pick store userId enums).filter
        (fun e => decide (e.1 = c)) =
      match sectionForRecord pick ci with
      | some s => [(c, s)]
      | none => [] := by
  induction store with
  | nil => cases hci
  | cons a as ih =>
    have hpair := List.pairwise_cons.mp huniq
    rw [injectedTaggedSections_cons, List.filter_append]
    rcases List.mem_cons.mp hci with rfl | hmem'
    · have hq : (ci.userId == userId && decide (ci.category ∈ enums)) = true := by
        rw [Bool.and_eq_true]
        exact ⟨beq_iff_eq.mpr huser, by rw [hcat]; simpa using hmem⟩
      rw [if_pos hq]
      have htail : (injectedTaggedSections pick as userId enums).filter
          (fun e => decide (e.1 = c)) = [] := by
        refine injectedTaggedSections_filter_nil pick as userId enums c ?_
        intro b hb hbuser
        exact fun hbc =>
          hpair.1 b hb (huser.trans hbuser.symm) (hcat.trans hbc.symm)
      rw [htail]
      cases hsec : sectionForRecord pick ci with
      | none => simp
      | some s => simp [hcat]
    · have htail := ih hmem' hpair.2
      rw [htail]
      by_cases hq : (a.userId == userId && decide (a.category ∈ enums)) = true
      · rw [if_pos hq]
        have hauser : a.userId = userId := by
          have := (Bool.and_eq_true _ _).mp hq
          exact eq_of_beq this.1
        have hane : a.category ≠ c := fun h =>
          hpair.1 ci hmem' (hauser.trans huser.symm) (h.trans hcat.symm)
        cases hsec : sectionForRecord pick a with
        | none => simp
        | some s => simp [hane]
      · rw [if_neg hq]
        rfl

theorem injectCustomerInfo_eq_renderCore
    (pick : List PromptResponsePair → PromptResponsePair)
    (store : List CustomerInfoRec) (userId : Nat)
    (t : String) (sel : List (String × Bool)) :
    injectCustomerInfo pick store userId t sel =
      renderCore pick store userId t (enabledEnums sel) := by
  unfold injectCustomerInfo renderCore
  by_cases hsel : sel = []
  · subst hsel
    simp [enabledEnums]
  · simp only [if_neg hsel]
    by_cases hcats : (sel.filter (fun e => e.2)).map Prod.fst = []
    · rw [enabledEnums_nil_of_no_enabled sel hcats]
      simp [hcats]
    · simp only [if_neg hcats]
      rfl

theorem mem_enabledEnums_of_sel (c : CustomerCategory)
    (sel : List (String × Bool)) (hsel : (c.value, true) ∈ sel)
    (hnotIgn : c ∉ IGNORED_CATEGORIES) : c ∈ enabledEnums sel := by
  unfold enabledEnums
  refine List.mem_filterMap.mpr ⟨c.value, ?_, ?_⟩
  · exact List.mem_map.mpr
      ⟨(c.value, true), List.mem_filter.mpr ⟨hsel, rfl⟩, rfl⟩
  · rw [categoryOfValue_value]
    simp [hnotIgn]

theorem all_pairs_not_ignored (c : CustomerCategory)
    (hc : c ∈ ALL_PAIRS_CATEGORIES) : c ∉ IGNORED_CATEGORIES := by
  fin_cases hc <;> decide

theorem random_not_ignored (c : CustomerCategory)
    (hc : c ∈ RANDOM_CATEGORIES) : c ∉ IGNORED_CATEGORIES := by
  fin_cases hc <;> decide

theorem all_pairs_not_random (c : CustomerCategory)
    (hc : c ∈ ALL_PAIRS_CATEGORIES) : c ∉ RANDOM_CATEGORIES := by
  fin_cases hc <;> decide

theorem sectionForRecord_all
    (pick : List PromptResponsePair → PromptResponsePair)
    (ci : CustomerInfoRec) (hne : ci.details ≠ [])
    (hc : ci.category ∈ ALL_PAIRS_CATEGORIES) :
    sectionForRecord pick ci =
      some (formatCustomerSection ci.category.value ci.details) := by
  unfold sectionForRecord
  rw [if_neg hne, if_neg (by simpa using all_pairs_not_random ci.category hc),
    if_pos hc]

theorem sectionForRecord_random
    (pick : List PromptResponsePair → PromptResponsePair)
    (ci : CustomerInfoRec) (hne : ci.details ≠ [])
    (hc : ci.category ∈ RANDOM_CATEGORIES) :
    sectionForRecord pick ci =
      some (formatCustomerSection ci.category.value [pick ci.details]) := by
  unfold sectionForRecord
  rw [if_neg hne, if_pos hc]

theorem renderCore_eq
    (pick : List PromptResponsePair → PromptResponsePair)
    (store : List CustomerInfoRec) (userId : Nat) (t : String)
    (enums : List CustomerCategory) (h1 : enums ≠ [])
    (h2 : (injectedTaggedSections pick store userId enums).map Prod.snd ≠ []) :
    renderCore pick store userId t enums =
      t ++ "\n\n" ++ String.intercalate "\n\n"
        ((injectedTaggedSections pick store userId enums).map Prod.snd) := by
  unfold renderCore
  rw [if_neg h1, if_neg h2]

/-- For an enabled, non-ignored category whose record has non-empty details,
the tagged section list is non-empty and the render appends it after the
template body. -/
theorem injectCustomerInfo_eq_of_filter_ne
    (pick : List PromptResponsePair → PromptResponsePair)
    (store : List CustomerInfoRec) (userId : Nat) (t : String)
    (sel : List (String × Bool)) (c : CustomerCategory)
    (hmem : c ∈ enabledEnums sel)
    (hfil : (injectedTaggedSections pick store userId (enabledEnums sel)).filter
        (fun e => decide (e.1 = c)) ≠ []) :
    injectCustomerInfo pick store userId t sel =
      t ++ "\n\n" ++ String.intercalate "\n\n"
        ((injectedTaggedSections pick store userId (enabledEnums sel)).map
          Prod.snd) := by
  rw [injectCustomerInfo_eq_renderCore]
  refine renderCore_eq pick store userId t (enabledEnums sel)
    (List.ne_nil_of_mem hmem) ?_
  intro hmap
  apply hfil
  rw [List.map_eq_nil_iff.mp hmap]
  rfl

/-- C4: for every enabled category whose policy is `all` and whose stored
record has a non-empty pair sequence, the injection engine includes every
stored pair of that category in the rendered text exactly once, in storage
order, formatted as a block with an opening marker line naming the category,
one Prompt/Response line pair per stored pair, and a closing marker line
naming the category, appended after the template body. -/
theorem all_pairs_category_injected_once
    (pick : List PromptResponsePair → PromptResponsePair)
    (store : List CustomerInfoRec) (userId : Nat) (t : String)
    (sel : List (String × Bool)) (c : CustomerCategory)
    (ci : CustomerInfoRec)
    (hsel : (c.value, true) ∈ sel)
    (hc : c ∈ ALL_PAIRS_CATEGORIES)
    (hci : ci ∈ store) (huser : ci.userId = userId) (hcat : ci.category = c)
    (hne : ci.details ≠ [])
    (huniq : store.Pairwise
      (fun a b => a.userId = b.userId → a.category ≠ b.category)) :
    injectCustomerInfo pick store userId t sel =
      t ++ "\n\n" ++ String.intercalate "\n\n"
        ((injectedTaggedSections pick store userId (enabledEnums sel)).map
          Prod.snd) ∧
    (injectedTaggedSections pick store userId (enabledEnums sel)).filter
        (fun e => decide (e.1 = c)) =
      [(c, formatCustomerSection c.value ci.details)] ∧
    formatCustomerSection c.value ci.details =
      String.intercalate "\n"
        (("### Customer " ++ c.value ++ " ###") ::
          (ci.details.flatMap fun p =>
            ["Prompt: " ++ p.prompt, "Response: " ++ p.response]) ++
          ["### End Customer " ++ c.value ++ " ###"]) := by
  have hnotIgn := all_pairs_not_ignored c hc
  have hmem := mem_enabledEnums_of_sel c sel hsel hnotIgn
  have hsec := sectionForRecord_all pick ci hne (hcat ▸ hc)
  rw [hcat] at hsec
  have hfilter := injectedTaggedSections_filter_singleton pick store userId
    (enabledEnums sel) c ci hci huser hcat hmem huniq
  rw [hsec] at hfilter
  refine ⟨?_, hfilter, rfl⟩
  refine injectCustomerInfo_eq_of_filter_ne pick store userId t sel c hmem ?_
  rw [hfilter]
  exact List.cons_ne_nil _ _

/-- C5: for every enabled category whose policy is `random` and whose stored
record has a non-empty pair sequence, rendering selects exactly one pair from
that sequence, so the injected block for that category is one of the valid
single-pair renderings. -/
theorem random_category_injects_one_pair
    (pick : List PromptResponsePair → PromptResponsePair)
    (store : List CustomerInfoRec) (userId : Nat) (t : String)
    (sel : List (String × Bool)) (c : CustomerCategory)
    (ci : CustomerInfoRec)
    (hpick : ∀ l, l ≠ [] → pick l ∈ l)
    (hsel : (c.value, true) ∈ sel)
    (hc : c ∈ RANDOM_CATEGORIES)
    (hci : ci ∈ store) (huser : ci.userId = userId) (hcat : ci.category = c)
    (hne : ci.details ≠ [])
    (huniq : store.Pairwise
      (fun a b => a.userId = b.userId → a.category ≠ b.category)) :
    ∃ p ∈ ci.details,
      injectCustomerInfo pick store userId t sel =
        t ++ "\n\n" ++ String.intercalate "\n\n"
          ((injectedTaggedSections pick store userId (enabledEnums sel)).map
            Prod.snd) ∧
      (injectedTaggedSections pick store userId (enabledEnums sel)).filter
          (fun e => decide (e.1 = c)) =
        [(c, formatCustomerSection c.value [p])] := by
  have hnotIgn := random_not_ignored c hc
  have hmem := mem_enabledEnums_of_sel c sel hsel hnotIgn
  have hsec := sectionForRecord_random pick ci hne (hcat ▸ hc)
  rw [hcat] at hsec
  have hfilter := injectedTaggedSections_filter_singleton pick store userId
    (enabledEnums sel) c ci hci huser hcat hmem huniq
  rw [hsec] at hfilter
  refine ⟨pick ci.details, hpick ci.details hne, ?_, hfilter⟩
  refine injectCustomerInfo_eq_of_filter_ne pick store userId t sel c hmem ?_
  rw [hfilter]
  exact List.cons_ne_nil _ _

/-- C6: if the selection map is empty, or every entry in it is false, or the
only enabled keys name categories whose policy is `ignored`, injection
returns the template body unchanged (and, being a pure function from the
store to a string, mutates nothing). -/
theorem injection_noop_on_empty_or_ignored
    (pick : List PromptResponsePair → PromptResponsePair)
    (store : List CustomerInfoRec) (userId : Nat) (t : String)
    (sel : List (String × Bool))
    (h : sel = [] ∨ (∀ e ∈ sel, e.2 = false) ∨
      (∀ e ∈ sel, e.2 = true →
        ∃ c ∈ IGNORED_CATEGORIES, categoryOfValue e.1 = some c)) :
    injectCustomerInfo pick store userId t sel = t := by
  rw [injectCustomerInfo_eq_renderCore]
  have henums : enabledEnums sel = [] := by
    rcases h with rfl | h2 | h3
    · rfl
    · apply enabledEnums_nil_of_no_enabled
      rw [List.filter_eq_nil_iff.mpr (fun a ha => by simp [h2 a ha])]
      rfl
    · unfold enabledEnums
      rw [List.filterMap_eq_nil_iff]
      intro name hname
      obtain ⟨e, he, rfl⟩ := List.mem_map.mp hname
      have hef := List.mem_filter.mp he
      obtain ⟨c, hcI, hcv⟩ := h3 e hef.1 (by simpa using hef.2)
      rw [hcv]
      simp [hcI]
  rw [henums]
  unfold renderCore
  simp

theorem enabledEnums_append (xs ys : List (String × Bool)) :
    enabledEnums (xs ++ ys) = enabledEnums xs ++ enabledEnums ys := by
  simp [enabledEnums, List.filter_append, List.map_append,
    List.filterMap_append]

theorem enabledEnums_invalid_cons (k : String) (b : Bool)
    (l : List (String × Bool)) (hk : categoryOfValue k = none) :
    enabledEnums ((k, b) :: l) = enabledEnums l := by
  unfold enabledEnums
  rw [List.filter_cons]
  cases b with
  | false => simp
  | true => simp [hk]

/-- C10: a selection-map key that is not one of the eleven category names is
silently dropped: rendering with that key present (either flag) equals
rendering the same map without it. -/
theorem unknown_selection_key_dropped
    (pick : List PromptResponsePair → PromptResponsePair)
    (store : List CustomerInfoRec) (userId : Nat) (t : String)
    (l₁ l₂ : List (String × Bool)) (k : String) (b : Bool)
    (hk : categoryOfValue k = none) :
    injectCustomerInfo pick store userId t (l₁ ++ (k, b) :: l₂) =
      injectCustomerInfo pick store userId t (l₁ ++ l₂) := by
  rw [injectCustomerInfo_eq_renderCore, injectCustomerInfo_eq_renderCore,
    enabledEnums_append, enabledEnums_append,
    enabledEnums_invalid_cons k b l₂ hk]

/-- A concrete `random.choice` oracle used by witnesses: the list head. -/
def pickHead : List PromptResponsePair → PromptResponsePair :=
  fun l => l.headD ⟨"", ""⟩

theorem pickHead_mem : ∀ l, l ≠ [] → pickHead l ∈ l := by
  intro l h
  cases l with
  | nil => exact absurd rfl h
  | cons a as => exact List.mem_cons_self a as

/-- A concrete stored record for an `all`-policy category. -/
def ciAllW : CustomerInfoRec :=
  ⟨1, .customerPersona, [⟨"Q1", "A1"⟩, ⟨"Q2", "A2"⟩]⟩

/-- A concrete stored record for a `random`-policy category. -/
def ciRanW : CustomerInfoRec :=
  ⟨2, .pain, [⟨"P1", "R1"⟩, ⟨"P2", "R2"⟩]⟩

theorem all_pairs_category_injected_once_witness :
    injectCustomerInfo pickHead [ciAllW] 1 "T" [("Customer Persona", true)] =
      "T" ++ "\n\n" ++ String.intercalate "\n\n"
        ((injectedTaggedSections pickHead [ciAllW] 1
          (enabledEnums [("Customer Persona", true)])).map Prod.snd) ∧
    (injectedTaggedSections pickHead [ciAllW] 1
        (enabledEnums [("Customer Persona", true)])).filter
        (fun e => decide (e.1 = CustomerCategory.customerPersona)) =
      [(CustomerCategory.customerPersona,
        formatCustomerSection CustomerCategory.customerPersona.value
          ciAllW.details)] ∧
    formatCustomerSection CustomerCategory.customerPersona.value
        ciAllW.details =
      String.intercalate "\n"
        (("### Customer " ++ CustomerCategory.customerPersona.value ++
            " ###") ::
          (ciAllW.details.flatMap fun p =>
            ["Prompt: " ++ p.prompt, "Response: " ++ p.response]) ++
          ["### End Customer " ++ CustomerCategory.customerPersona.value ++
            " ###"]) :=
  all_pairs_category_injected_once pickHead [ciAllW] 1 "T"
    [("Customer Persona", true)] .customerPersona ciAllW
    (by decide) (by decide) (List.mem_singleton.mpr rfl) rfl rfl
    (by simp [ciAllW]) (by simp)

theorem random_category_injects_one_pair_witness :
    ∃ p ∈ ciRanW.details,
      injectCustomerInfo pickHead [ciRanW] 2 "T" [("Pain", true)] =
        "T" ++ "\n\n" ++ String.intercalate "\n\n"
          ((injectedTaggedSections pickHead [ciRanW] 2
            (enabledEnums [("Pain", true)])).map Prod.snd) ∧
      (injectedTaggedSections pickHead [ciRanW] 2
          (enabledEnums [("Pain", true)])).filter
          (fun e => decide (e.1 = CustomerCategory.pain)) =
        [(CustomerCategory.pain,
          formatCustomerSection CustomerCategory.pain.value [p])] :=
  random_category_injects_one_pair pickHead [ciRanW] 2 "T"
    [("Pain", true)] .pain ciRanW pickHead_mem
    (by decide) (by decide) (List.mem_singleton.mpr rfl) rfl rfl
    (by simp [ciRanW]) (by simp)

theorem injection_noop_on_empty_or_ignored_witness :
    injectCustomerInfo pickHead [ciRanW] 2 "Body"
      [("Pain", false), ("USP", true)] = "Body" :=
  injection_noop_on_empty_or_ignored pickHead [ciRanW] 2 "Body"
    [("Pain", false), ("USP", true)] (Or.inr (Or.inr (by decide)))

theorem unknown_selection_key_dropped_witness :
    injectCustomerInfo pickHead [ciRanW] 2 "T"
        ([("Pain", true)] ++ ("Bogus", true) :: []) =
      injectCustomerInfo pickHead [ciRanW] 2 "T" ([("Pain", true)] ++ []) :=
  unknown_selection_key_dropped pickHead [ciRanW] 2 "T"
    [("Pain", true)] [] "Bogus" true (by decide)

/-! ## Provider factory and registries (providers/provider_factory.py) -/

/-- What the orchestrators see of a provider class: its name, its
`AVAILABLE_MODELS`, and its `VALID_CREDENTIAL_KEYS`. -/
structure ProviderClass where
  providerName : String
  availableModels : List String
  validCredentialKeys : List String
deriving DecidableEq, Repr

/-- text_providers/openai_provider.py -/
def OpenAIProvider : ProviderClass :=
  ⟨"openai",
   ["gpt-4o", "gpt-4o-mini", "gpt-4-turbo", "gpt-4", "gpt-3.5-turbo"],
   ["chatgpt_api_key", "openai_api_key"]⟩

/-- text_providers/anthropic_provider.py -/
def AnthropicProvider : ProviderClass :=
  ⟨"anthropic",
   ["claude-opus-4-5-20251101", "claude-sonnet-4-5-20250929",
    "claude-sonnet-4-20250514", "claude-3-5-sonnet-20241022",
    "claude-3-5-sonnet-20240620", "claude-3-opus-20240229",
    "claude-3-sonnet-20240229", "claude-3-haiku-20240307"],
   ["anthropic_api_key", "claude_api_key"]⟩

/-- text_providers/gemini_provider.py -/
def GeminiProvider : ProviderClass :=
  ⟨"gemini",
   ["gemini-1.5-pro", "gemini-1.5-pro-latest", "gemini-1.5-flash",
    "gemini-1.5-flash-latest", "gemini-1.0-pro"],
   ["gemini_api_key", "google_ai_api_key"]⟩

/-- image_providers/openai_dalle_provider.py -/
def OpenAIDalleProvider : ProviderClass :=
  ⟨"openai_dalle", ["dall-e-3", "dall-e-2"],
   ["openai_api_key", "chatgpt_api_key"]⟩

/-- image_providers/bfl_flux_provider.py -/
def BFLFluxProvider : ProviderClass :=
  ⟨"bfl_flux", ["flux-pro-1.1", "flux-pro", "flux-dev"],
   ["bfl_api_key", "flux_api_key"]⟩

/-- vision_providers/lm_studio_vision_provider.py (declares an empty
credential key list: no API key required for local LM Studio). -/
def LMStudioVisionProvider : ProviderClass :=
  ⟨"lm_studio_vision",
   ["llava-1.5-7b", "llava-1.6-mistral-7b", "llava-1.6-vicuna-7b",
    "llava-v1.6-mistral-7b-gguf"],
   []⟩

/-- vision_providers/openai_vision_provider.py -/
def OpenAIVisionProvider : ProviderClass :=
  ⟨"openai_vision", ["gpt-4o", "gpt-4o-mini", "gpt-4-turbo"],
   ["chatgpt_api_key", "openai_api_key"]⟩

/-- vision_providers/anthropic_vision_provider.py -/
def AnthropicVisionProvider : ProviderClass :=
  ⟨"anthropic_vision",
   ["claude-opus-4-5-20251101", "claude-sonnet-4-5-20250929",
    "claude-sonnet-4-20250514", "claude-3-5-sonnet-20241022",
    "claude-3-5-sonnet-20240620", "claude-3-opus-20240229",
    "claude-3-sonnet-20240229", "claude-3-haiku-20240307"],
   ["anthropic_api_key", "claude_api_key"]⟩

/-- `ProviderFactory._text_providers` after process start (the three
`register_text_provider` calls run in import order). -/
def textProviders : List (String × ProviderClass) :=
  [("openai", OpenAIProvider), ("anthropic", AnthropicProvider),
   ("gemini", GeminiProvider)]

/-- `ProviderFactory._image_providers` after process start (the two
`register_image_provider` calls run in import order). -/
def imageProviders : List (String × ProviderClass) :=
  [("openai_dalle", OpenAIDalleProvider), ("bfl_flux", BFLFluxProvider)]

/-- `dict.get` over a registry dictionary. -/
def registryLookup (registry : List (String × ProviderClass))
    (name : String) : Option ProviderClass :=
  (registry.find? (fun e => e.1 == name)).map Prod.snd

/-- `ProviderFactory.get_models_for_provider`: `provider_type == "text"`
selects the text registry, anything else (including `"vision"`) the image
registry; an unknown provider yields `[]`. -/
def getModelsForProvider (providerName providerType : String) :
    List String :=
  match (if providerType == "text" then registryLookup textProviders providerName
         else registryLookup imageProviders providerName) with
  | some providerClass => providerClass.availableModels
  | none => []

/-- `ProviderFactory.get_valid_credentials_for_provider`: same dispatch as
`get_models_for_provider`, returning `VALID_CREDENTIAL_KEYS`. -/
def getValidCredentialsForProvider (providerName providerType : String) :
    List String :=
  match (if providerType == "text" then registryLookup textProviders providerName
         else registryLookup imageProviders providerName) with
  | some providerClass => providerClass.validCredentialKeys
  | none => []

/-- The class methods `ProviderFactory` actually defines
(provider_factory.py lines 8-165): Python attribute lookup on the class
succeeds exactly for these names. -/
def providerFactoryMethods : List String :=
  ["register_text_provider", "register_image_provider",
   "create_text_provider", "create_image_provider",
   "get_available_text_providers", "get_available_image_providers",
   "get_text_provider_class", "get_image_provider_class",
   "get_models_for_provider", "get_valid_credentials_for_provider"]

/-- The `ProviderFactory` class methods invoked by the vision provider
modules at import time (their auto-register lines) and by
`OCRService.process_image` and api/v1/ocr.py. -/
def visionFactoryCallsMade : List String :=
  ["register_vision_provider", "create_vision_provider",
   "get_available_vision_providers", "get_vision_provider_class"]

/-- C1 (code bug): the Provider Registry does NOT support the vision
capability.  `ProviderFactory` defines registration/lookup methods only for
text and image; every method name the vision provider modules and the OCR
orchestrator invoke (`register_vision_provider` at import time,
`create_vision_provider` during `process_image`) is absent from the class,
so vision self-registration raises `AttributeError` at process start and the
OCR orchestrator cannot resolve a vision provider instance by name.
Consequently `get_valid_credentials_for_provider(name, "vision")` falls into
the image branch and returns `[]` even for registered vision providers. -/
theorem vision_registry_missing_from_factory :
    (∀ call ∈ visionFactoryCallsMade, call ∉ providerFactoryMethods) ∧
    "register_vision_provider" ∉ providerFactoryMethods ∧
    "create_vision_provider" ∉ providerFactoryMethods ∧
    "register_text_provider" ∈ providerFactoryMethods ∧
    "register_image_provider" ∈ providerFactoryMethods ∧
    getModelsForProvider "lm_studio_vision" "vision" = [] ∧
    getModelsForProvider "openai_vision" "vision" = [] ∧
    getModelsForProvider "anthropic_vision" "vision" = [] := by
  decide

/-! ## Credential resolution of the three orchestrator variants -/

/-- A row of the `credentials` table. -/
structure CredentialRec where
  userId : Nat
  key : String
  encryptedValue : String
deriving DecidableEq, Repr

/-- `GenerationService._get_credentials_for_provider` (text variant):
raises when the accepted key list is empty, otherwise queries the store,
then decrypts.  `decrypt` models `decrypt_value` (may raise). -/
def textGetCredentialsForProvider (decrypt : String → Except String String)
    (credentials : List CredentialRec) (userId : Nat) (provider : String) :
    Except String String :=
  let validKeys := getValidCredentialsForProvider provider "text"
  if validKeys = [] then
    .error ("No valid credential keys defined for provider '" ++
      provider ++ "'")
  else
    match credentials.find?
        (fun c => c.userId == userId && decide (c.key ∈ validKeys)) with
    | none =>
        .error ("No credentials found for provider '" ++ provider ++
          "'. Please add one of: " ++ String.intercalate ", " validKeys)
    | some cred =>
        match decrypt cred.encryptedValue with
        | .ok apiKey => .ok apiKey
        | .error e => .error ("Failed to decrypt credential: " ++ e)

/-- `ImageGenerationService._get_credentials_for_provider`: identical to the
text variant but dispatching on the image registry. -/
def imageGetCredentialsForProvider (decrypt : String → Except String String)
    (credentials : List CredentialRec) (userId : Nat) (provider : String) :
    Except String String :=
  let validKeys := getValidCredentialsForProvider provider "image"
  if validKeys = [] then
    .error ("No valid credential keys defined for provider '" ++
      provider ++ "'")
  else
    match credentials.find?
        (fun c => c.userId == userId && decide (c.key ∈ validKeys)) with
    | none =>
        .error ("No credentials found for provider '" ++ provider ++
          "'. Please add one of: " ++ String.intercalate ", " validKeys)
    | some cred =>
        match decrypt cred.encryptedValue with
        | .ok apiKey => .ok apiKey
        | .error e => .error ("Failed to decrypt credential: " ++ e)

/-- `OCRService._get_credentials_for_provider`: an empty accepted key list
means a local provider and yields the empty API key without touching the
store. -/
def ocrGetCredentialsForProvider (decrypt : String → Except String String)
    (credentials : List CredentialRec) (userId : Nat) (provider : String) :
    Except String String :=
  let validKeys := getValidCredentialsForProvider provider "vision"
  if validKeys = [] then
    .ok ""
  else
    match credentials.find?
        (fun c => c.userId == userId && decide (c.key ∈ validKeys)) with
    | none =>
        .error ("No credentials found for provider '" ++ provider ++
          "'. Please add one of: " ++ String.intercalate ", " validKeys)
    | some cred =>
        match decrypt cred.encryptedValue with
        | .ok apiKey => .ok apiKey
        | .error e => .error ("Failed to decrypt credential: " ++ e)

/-- C2 counterexample: `lm_studio_vision` declares an empty accepted
credential key set, yet the text-generation orchestrator variant fails for
it instead of treating it as requiring no credential, refuting the claim for
"every orchestrator variant". -/
theorem empty_keys_text_variant_fails_counterexample :
    LMStudioVisionProvider.validCredentialKeys = [] ∧
    textGetCredentialsForProvider (fun s => .ok s) [] 1 "lm_studio_vision" =
      .error
        "No valid credential keys defined for provider 'lm_studio_vision'" ∧
    imageGetCredentialsForProvider (fun s => .ok s) [] 1 "lm_studio_vision" =
      .error
        "No valid credential keys defined for provider 'lm_studio_vision'" :=
  ⟨rfl, rfl, rfl⟩

/-- C2 (amended): for a provider whose accepted key set resolves to the
empty list, no orchestrator variant ever queries the credential store (the
result is independent of the store contents); the vision/OCR variant treats
the provider as requiring no credential and returns the empty key, while the
text and image variants fail fast with a precondition error naming the
provider. -/
theorem empty_accepted_keys_resolution
    (decrypt : String → Except String String)
    (creds creds2 : List CredentialRec) (userId : Nat) (provider : String)
    (ht : getValidCredentialsForProvider provider "text" = [])
    (hi : getValidCredentialsForProvider provider "image" = [])
    (hv : getValidCredentialsForProvider provider "vision" = []) :
    ocrGetCredentialsForProvider decrypt creds userId provider = .ok "" ∧
    textGetCredentialsForProvider decrypt creds userId provider =
      .error ("No valid credential keys defined for provider '" ++
        provider ++ "'") ∧
    imageGetCredentialsForProvider decrypt creds userId provider =
      .error ("No valid credential keys defined for provider '" ++
        provider ++ "'") ∧
    ocrGetCredentialsForProvider decrypt creds userId provider =
      ocrGetCredentialsForProvider decrypt creds2 userId provider ∧
    textGetCredentialsForProvider decrypt creds userId provider =
      textGetCredentialsForProvider decrypt creds2 userId provider ∧
    imageGetCredentialsForProvider decrypt creds userId provider =
      imageGetCredentialsForProvider decrypt creds2 userId provider := by
  refine ⟨?_, ?_, ?_, ?_, ?_, ?_⟩ <;>
    simp [ocrGetCredentialsForProvider, textGetCredentialsForProvider,
      imageGetCredentialsForProvider, ht, hi, hv]

theorem empty_accepted_keys_resolution_witness :
    ocrGetCredentialsForProvider (fun s => .ok s) [] 1 "lm_studio_vision" =
      .ok "" ∧
    textGetCredentialsForProvider (fun s => .ok s) [] 1 "lm_studio_vision" =
      .error ("No valid credential keys defined for provider '" ++
        "lm_studio_vision" ++ "'") ∧
    imageGetCredentialsForProvider (fun s => .ok s) [] 1 "lm_studio_vision" =
      .error ("No valid credential keys defined for provider '" ++
        "lm_studio_vision" ++ "'") ∧
    ocrGetCredentialsForProvider (fun s => .ok s) [] 1 "lm_studio_vision" =
      ocrGetCredentialsForProvider (fun s => .ok s)
        [⟨1, "openai_api_key", "enc"⟩] 1 "lm_studio_vision" ∧
    textGetCredentialsForProvider (fun s => .ok s) [] 1 "lm_studio_vision" =
      textGetCredentialsForProvider (fun s => .ok s)
        [⟨1, "openai_api_key", "enc"⟩] 1 "lm_studio_vision" ∧
    imageGetCredentialsForProvider (fun s => .ok s) [] 1 "lm_studio_vision" =
      imageGetCredentialsForProvider (fun s => .ok s)
        [⟨1, "openai_api_key", "enc"⟩] 1 "lm_studio_vision" :=
  empty_accepted_keys_resolution (fun s => .ok s) []
    [⟨1, "openai_api_key", "enc"⟩] 1 "lm_studio_vision" rfl rfl rfl

/-! ## Text generation orchestrator (services/generation_service.py) -/

/-- The uniform text request (`GenerationRequest` dataclass).  The float
`temperature` is carried opaquely (modelled as `Rat`; the orchestrator never
computes with it). -/
structure GenRequest where
  prompt : String
  systemPrompt : Option String
  maxTokens : Option Nat
  temperature : Option Rat
deriving DecidableEq, Repr

/-- The uniform text response (`GenerationResponse` dataclass;
`raw_response` is omitted as an opaque debugging payload). -/
structure GenResponse where
  content : String
  modelUsed : String
  provider : String
  usage : Option (List (String × Nat))
  error : Option String
  success : Bool
  requestId : String
deriving DecidableEq, Repr

/-- A row of the `prompts` table, with the fields `generate_text` reads. -/
structure PromptRec where
  id : Nat
  userId : Nat
  name : String
  details : String
  selectedCustomers : List (String × Bool)
deriving DecidableEq, Repr

/-- A row of the `model_configs` table. -/
structure ModelConfigRec where
  id : Nat
  userId : Nat
  provider : String
  modelId : String
  modelType : String
  isEnabled : Bool
  isDefault : Bool
deriving DecidableEq, Repr

/-- `GenerationService._load_prompt`. -/
def loadPrompt (prompts : List PromptRec) (userId promptId : Nat) :
    Option PromptRec :=
  prompts.find? (fun p => p.id == promptId && p.userId == userId)

/-- `GenerationService._load_model_config` (also `_load_model_config` of the
image and OCR services, which are identical queries). -/
def loadModelConfig (configs : List ModelConfigRec)
    (userId modelConfigId : Nat) : Option ModelConfigRec :=
  configs.find? (fun m => m.id == modelConfigId && m.userId == userId)

/-- The database tables `generate_text` touches. -/
structure GenDB where
  prompts : List PromptRec
  customerInfos : List CustomerInfoRec
  modelConfigs : List ModelConfigRec
  credentials : List CredentialRec

/-- The body of the `try` block of `GenerationService.generate_text`
(steps 1-7): every `raise` becomes an `Except.error` carrying the
exception's message.  `providerGen` is the constructed provider's
`generate`, which may itself raise. -/
def generateTextSteps (db : GenDB)
    (pick : List PromptResponsePair → PromptResponsePair)
    (decrypt : String → Except String String)
    (providerGen : String → String → String → GenRequest →
      Except String GenResponse)
    (userId promptId modelConfigId : Nat)
    (temperature : Rat) (maxTokens : Option Nat) :
    Except String GenResponse :=
  match loadPrompt db.prompts userId promptId with
  | none => .error ("Prompt with ID " ++ toString promptId ++ " not found")
  | some prompt =>
    let renderedPrompt := injectCustomerInfo pick db.customerInfos userId
      prompt.details prompt.selectedCustomers
    match loadModelConfig db.modelConfigs userId modelConfigId with
    | none => .error ("Model configuration with ID " ++
        toString modelConfigId ++ " not found")
    | some modelConfig =>
      if !modelConfig.isEnabled then
        .error ("Model " ++ modelConfig.modelId ++ " is disabled")
      else
        match textGetCredentialsForProvider decrypt db.credentials userId
            modelConfig.provider with
        | .error e => .error e
        | .ok apiKey =>
          match registryLookup textProviders modelConfig.provider with
          | none => .error ("Provider '" ++ modelConfig.provider ++
              "' not found")
          | some _providerClass =>
            providerGen modelConfig.provider apiKey modelConfig.modelId
              { prompt := renderedPrompt, systemPrompt := none,
                maxTokens := maxTokens, temperature := some temperature }

/-- The uniform failure response built in the outermost `except` block. -/
def uniformFailure (e requestId : String) : GenResponse :=
  { content := "", modelUsed := "", provider := "", usage := none,
    error := some e, success := false, requestId := requestId }

/-- `GenerationService.generate_text`: run the `try` body; on success stamp
the fresh request id onto the provider's response (overwriting whatever the
provider set); on any exception return the uniform failure response carrying
the request id and the exception's message.  Total: never raises. -/
def generateText (db : GenDB)
    (pick : List PromptResponsePair → PromptResponsePair)
    (decrypt : String → Except String String)
    (providerGen : String → String → String → GenRequest →
      Except String GenResponse)
    (userId promptId modelConfigId : Nat)
    (temperature : Rat) (maxTokens : Option Nat)
    (requestId : String) : GenResponse :=
  match generateTextSteps db pick decrypt providerGen userId promptId
      modelConfigId temperature maxTokens with
  | .ok response => { response with requestId := requestId }
  | .error e => uniformFailure e requestId

/-- C3: the text generation orchestrator always returns a uniform response
(it is a total function into `GenResponse`): the result always carries the
correlation id generated at the start; any exception message `e` raised
before or around the provider call becomes a `success = false` response with
`error = some e` and that id; a provider-returned response is returned as-is
with only the request id overwritten, so a vendor-reported `success = false`
is propagated, not raised. -/
theorem generate_text_uniform_response (db : GenDB)
    (pick : List PromptResponsePair → PromptResponsePair)
    (decrypt : String → Except String String)
    (providerGen : String → String → String → GenRequest →
      Except String GenResponse)
    (userId promptId modelConfigId : Nat)
    (temperature : Rat) (maxTokens : Option Nat) (requestId : String) :
    (generateText db pick decrypt providerGen userId promptId modelConfigId
        temperature maxTokens requestId).requestId = requestId ∧
    (∀ e, generateTextSteps db pick decrypt providerGen userId promptId
        modelConfigId temperature maxTokens = .error e →
      generateText db pick decrypt providerGen userId promptId modelConfigId
          temperature maxTokens requestId = uniformFailure e requestId ∧
      (generateText db pick decrypt providerGen userId promptId
          modelConfigId temperature maxTokens requestId).success = false ∧
      (generateText db pick decrypt providerGen userId promptId
          modelConfigId temperature maxTokens requestId).error = some e) ∧
    (∀ r, generateTextSteps db pick decrypt providerGen userId promptId
        modelConfigId temperature maxTokens = .ok r →
      generateText db pick decrypt providerGen userId promptId modelConfigId
          temperature maxTokens requestId = { r with requestId := requestId } ∧
      (generateText db pick decrypt providerGen userId promptId
          modelConfigId temperature maxTokens requestId).success =
        r.success ∧
      (generateText db pick decrypt providerGen userId promptId
          modelConfigId temperature maxTokens requestId).error = r.error) := by
  unfold generateText
  cases h : generateTextSteps db pick decrypt providerGen userId promptId
      modelConfigId temperature maxTokens with
  | ok r =>
    refine ⟨rfl, fun e he => ?_, fun r' hr => ?_⟩
    · cases he
    · cases hr
      exact ⟨rfl, rfl, rfl⟩
  | error e =>
    refine ⟨rfl, fun e' he => ?_, fun r' hr => ?_⟩
    · cases he
      exact ⟨rfl, rfl, rfl⟩
    · cases hr

/-- Concrete stored prompt used by witnesses. -/
def promptW : PromptRec := ⟨1, 1, "p", "Write a post", []⟩

/-- Concrete enabled text model configuration used by witnesses. -/
def mcTextW : ModelConfigRec := ⟨2, 1, "openai", "gpt-4o", "text", true, false⟩

/-- Concrete stored credential used by witnesses. -/
def credW : CredentialRec := ⟨1, "openai_api_key", "enc"⟩

/-- Concrete database used by the generation witness. -/
def genDBW : GenDB := ⟨[promptW], [], [mcTextW], [credW]⟩

/-- A stub provider response carrying a vendor-reported failure. -/
def stubFailResponse : GenResponse :=
  ⟨"", "gpt-4o", "openai", none, some "vendor reported failure", false,
   "provider-set-id"⟩

/-- A stub provider that reports failure in-band (no exception). -/
def stubProviderGen :
    String → String → String → GenRequest → Except String GenResponse :=
  fun _ _ _ _ => .ok stubFailResponse

theorem generate_text_uniform_response_witness :
    generateText genDBW pickHead (fun s => .ok s) stubProviderGen
        1 1 2 1 none "rid" =
      { stubFailResponse with requestId := "rid" } ∧
    (generateText genDBW pickHead (fun s => .ok s) stubProviderGen
        1 1 2 1 none "rid").success = false ∧
    (generateText genDBW pickHead (fun s => .ok s) stubProviderGen
        1 1 2 1 none "rid").requestId = "rid" := by
  have h := generate_text_uniform_response genDBW pickHead (fun s => .ok s)
    stubProviderGen 1 1 2 1 none "rid"
  have h2 := h.2.2 stubFailResponse rfl
  exact ⟨h2.1, h2.2.1, h.1⟩

/-! ## OCR orchestrator (services/ocr_service.py) -/

/-- `SUPPORTED_IMAGE_TYPES`. -/
def SUPPORTED_IMAGE_TYPES : List String := ["png", "jpg", "jpeg", "gif", "webp"]

/-- `MAX_IMAGE_SIZE_BYTES` (20MB). -/
def MAX_IMAGE_SIZE_BYTES : Nat := 20 * 1024 * 1024

/-- `DEFAULT_OCR_PROMPT`. -/
def DEFAULT_OCR_PROMPT : String :=
  "Extract all text from this image. Return only the extracted text, " ++
  "preserving the original formatting and structure as much as possible."

/-- The characters after the last dot (`rsplit(".", 1)[-1]`), or `none`
when there is no dot (`"." not in filename`). -/
def afterLastDot : List Char → Option (List Char)
  | [] => none
  | c :: rest =>
    match afterLastDot rest with
    | some ext => some ext
    | none => if c = '.' then some rest else none

/-- The characters before the last dot (`rsplit(".", 1)[0]`), or `none`
when there is no dot. -/
def beforeLastDot : List Char → Option (List Char)
  | [] => none
  | c :: rest =>
    match beforeLastDot rest with
    | some pre => some (c :: pre)
    | none => if c = '.' then some [] else none

/-- `OCRService._get_image_type`: empty when the filename has no dot, else
the lowercased extension after the last dot, with jpeg normalised to jpg. -/
def getImageType (filename : String) : String :=
  match afterLastDot filename.toList with
  | none => ""
  | some extChars =>
    let ext := String.mk (extChars.map Char.toLower)
    if ext = "jpeg" then "jpg" else ext

/-- The uniform `VisionRequest` dataclass. -/
structure VisionReq where
  imageData : String
  imageType : String
  prompt : String
  maxTokens : Option Nat
deriving DecidableEq, Repr

/-- The uniform `VisionResponse` dataclass (`raw_response` omitted as an
opaque debugging payload). -/
structure VisionResp where
  extractedText : String
  modelUsed : String
  provider : String
  usage : Option (List (String × Nat))
  error : Option String
  success : Bool
  requestId : String
deriving DecidableEq, Repr

/-- A row of the `templates` table as created by the OCR service
(category is always the `"ocr"` member of `TemplateCategory`). -/
structure TemplateRec where
  name : String
  category : String
  tags : List String
  content : String
  userId : Nat
deriving DecidableEq, Repr

/-- Modelled from the spec: the vision half of the Provider Registry
(`ProviderFactory._vision_providers` populated by the three
`register_vision_provider` calls) is missing from provider_factory.py —
only its callers exist in the source — so it is reconstructed here from the
spec's description of vision-provider self-registration, in import order. -/
def visionProviders : List (String × ProviderClass) :=
  [("lm_studio_vision", LMStudioVisionProvider),
   ("openai_vision", OpenAIVisionProvider),
   ("anthropic_vision", AnthropicVisionProvider)]

/-- The database tables `process_image` touches. -/
structure OcrDB where
  modelConfigs : List ModelConfigRec
  credentials : List CredentialRec

/-- The `Template` record built by `OCRService._create_ocr_template`:
name defaults to "OCR: " plus the filename without its extension (Python
`if not template_name` also treats the empty string as absent), truncated
to 255 characters; tags default to `["ocr", "extracted"]` (Python
`template_tags or [...]` also treats the empty list as absent). -/
def ocrTemplateRec (userId : Nat) (extractedText : String)
    (templateName : Option String) (templateTags : Option (List String))
    (imageFilename : String) : TemplateRec :=
  let name :=
    if templateName.getD "" = "" then
      let baseName :=
        match beforeLastDot imageFilename.toList with
        | some pre => String.mk pre
        | none => imageFilename
      "OCR: " ++ baseName
    else
      templateName.getD ""
  let tags :=
    if templateTags.getD [] = [] then ["ocr", "extracted"]
    else templateTags.getD []
  { name := String.mk (name.toList.take 255), category := "ocr",
    tags := tags, content := extractedText, userId := userId }

/-- `OCRService._create_ocr_template`: the commit (`persist`) may raise; any
exception is caught and turned into `none` so the whole operation does not
fail. -/
def createOcrTemplate (persist : TemplateRec → Except String TemplateRec)
    (userId : Nat) (extractedText : String) (templateName : Option String)
    (templateTags : Option (List String)) (imageFilename : String) :
    Option TemplateRec :=
  match persist (ocrTemplateRec userId extractedText templateName
      templateTags imageFilename) with
  | .ok t => some t
  | .error _ => none

/-- The uniform failure `VisionResponse` built in the `except` block of
`process_image`. -/
def ocrFailure (e requestId : String) : VisionResp :=
  { extractedText := "", modelUsed := "", provider := "", usage := none,
    error := some e, success := false, requestId := requestId }

/-- Steps 1-7 of `OCRService.process_image` (validation, model config,
credentials, provider resolution, provider call), including the request-id
stamp of step 7.  `b64encode` models `base64.b64encode`; `extract` the
constructed provider's `extract_text` (which may raise). -/
def ocrPrimary (db : OcrDB) (decrypt : String → Except String String)
    (b64encode : List Nat → String)
    (extract : String → String → String → VisionReq →
      Except String VisionResp)
    (userId : Nat) (imageData : List Nat) (imageFilename : String)
    (modelConfigId : Nat) (customPrompt : Option String)
    (requestId : String) : Except String VisionResp :=
  let imageType := getImageType imageFilename
  if imageType ∉ SUPPORTED_IMAGE_TYPES then
    .error ("Unsupported image type. Supported: " ++
      String.intercalate ", " SUPPORTED_IMAGE_TYPES)
  else if imageData.length > MAX_IMAGE_SIZE_BYTES then
    .error ("Image too large. Maximum size: " ++
      toString (MAX_IMAGE_SIZE_BYTES / (1024 * 1024)) ++ "MB")
  else
    let base64Data := b64encode imageData
    match loadModelConfig db.modelConfigs userId modelConfigId with
    | none => .error ("Model configuration with ID " ++
        toString modelConfigId ++ " not found")
    | some modelConfig =>
      if modelConfig.modelType ≠ "vision" then
        .error ("Model " ++ modelConfig.modelId ++ " is not a vision model")
      else if !modelConfig.isEnabled then
        .error ("Model " ++ modelConfig.modelId ++ " is disabled")
      else
        match ocrGetCredentialsForProvider decrypt db.credentials userId
            modelConfig.provider with
        | .error e => .error e
        | .ok apiKey =>
          match registryLookup visionProviders modelConfig.provider with
          | none => .error ("Vision provider '" ++ modelConfig.provider ++
              "' not found")
          | some _providerClass =>
            match extract modelConfig.provider apiKey modelConfig.modelId
                { imageData := base64Data, imageType := imageType,
                  prompt := if customPrompt.getD "" = "" then
                      DEFAULT_OCR_PROMPT
                    else customPrompt.getD "",
                  maxTokens := none } with
            | .error e => .error e
            | .ok r => .ok { r with requestId := requestId }

/-- The whole `try` body of `process_image`: after a successful extraction
with non-empty text, attempt the best-effort template creation (step 8). -/
def processImageSteps (db : OcrDB) (decrypt : String → Except String String)
    (b64encode : List Nat → String)
    (extract : String → String → String → VisionReq →
      Except String VisionResp)
    (persist : TemplateRec → Except String TemplateRec)
    (userId : Nat) (imageData : List Nat) (imageFilename : String)
    (modelConfigId : Nat) (customPrompt : Option String)
    (templateName : Option String) (templateTags : Option (List String))
    (requestId : String) : Except String (VisionResp × Option TemplateRec) :=
  match ocrPrimary db decrypt b64encode extract userId imageData
      imageFilename modelConfigId customPrompt requestId with
  | .error e => .error e
  | .ok resp =>
      .ok (resp,
        if resp.success ∧ resp.extractedText ≠ "" then
          createOcrTemplate persist userId resp.extractedText templateName
            templateTags imageFilename
        else none)

/-- `OCRService.process_image`: total; any exception becomes the uniform
failure response (with the request id) paired with no template. -/
def processImage (db : OcrDB) (decrypt : String → Except String String)
    (b64encode : List Nat → String)
    (extract : String → String → String → VisionReq →
      Except String VisionResp)
    (persist : TemplateRec → Except String TemplateRec)
    (userId : Nat) (imageData : List Nat) (imageFilename : String)
    (modelConfigId : Nat) (customPrompt : Option String)
    (templateName : Option String) (templateTags : Option (List String))
    (requestId : String) : VisionResp × Option TemplateRec :=
  match processImageSteps db decrypt b64encode extract persist userId
      imageData imageFilename modelConfigId customPrompt templateName
      templateTags requestId with
  | .ok p => p
  | .error e => (ocrFailure e requestId, none)

/-- C9: when the OCR pipeline has produced a successful extraction and the
template persistence step fails, the failure is swallowed: the template
result is `none` and the orchestrator still returns the successful
extraction response (success flag intact), never a reported failure. -/
theorem ocr_template_failure_swallowed (db : OcrDB)
    (decrypt : String → Except String String)
    (b64encode : List Nat → String)
    (extract : String → String → String → VisionReq →
      Except String VisionResp)
    (persist : TemplateRec → Except String TemplateRec)
    (userId : Nat) (imageData : List Nat) (imageFilename : String)
    (modelConfigId : Nat) (customPrompt : Option String)
    (templateName : Option String) (templateTags : Option (List String))
    (requestId : String) (r : VisionResp) (msg : String)
    (hprimary : ocrPrimary db decrypt b64encode extract userId imageData
      imageFilename modelConfigId customPrompt requestId = .ok r)
    (hsuccess : r.success = true)
    (htext : r.extractedText ≠ "")
    (hpersist : persist (ocrTemplateRec userId r.extractedText templateName
      templateTags imageFilename) = .error msg) :
    processImage db decrypt b64encode extract persist userId imageData
        imageFilename modelConfigId customPrompt templateName templateTags
        requestId = (r, none) ∧
    (processImage db decrypt b64encode extract persist userId imageData
        imageFilename modelConfigId customPrompt templateName templateTags
        requestId).1.success = true := by
  have hcond : r.success = true ∧ r.extractedText ≠ "" := ⟨hsuccess, htext⟩
  unfold processImage processImageSteps createOcrTemplate
  simp only [hprimary]
  rw [if_pos hcond, hpersist]
  exact ⟨rfl, hsuccess⟩

/-- Concrete vision model configuration used by the OCR witness. -/
def mcVisionW : ModelConfigRec :=
  ⟨3, 1, "lm_studio_vision", "llava-1.5-7b", "vision", true, false⟩

/-- Concrete stub extraction response used by the OCR witness. -/
def stubVisionResp : VisionResp :=
  ⟨"Hello world", "llava-1.5-7b", "lm_studio_vision", none, none, true, ""⟩

theorem ocr_template_failure_swallowed_witness :
    processImage ⟨[mcVisionW], []⟩ (fun s => .ok s) (fun _ => "AQID")
        (fun _ _ _ _ => .ok stubVisionResp) (fun _ => .error "db down")
        1 [1, 2, 3] "scan.png" 3 none none none "rid" =
      ({ stubVisionResp with requestId := "rid" }, none) ∧
    (processImage ⟨[mcVisionW], []⟩ (fun s => .ok s) (fun _ => "AQID")
        (fun _ _ _ _ => .ok stubVisionResp) (fun _ => .error "db down")
        1 [1, 2, 3] "scan.png" 3 none none none "rid").1.success = true :=
  ocr_template_failure_swallowed ⟨[mcVisionW], []⟩ (fun s => .ok s)
    (fun _ => "AQID") (fun _ _ _ _ => .ok stubVisionResp)
    (fun _ => .error "db down") 1 [1, 2, 3] "scan.png" 3 none none none
    "rid" { stubVisionResp with requestId := "rid" } "db down"
    (by rfl) rfl (by decide) rfl

/-! ## BFL Flux polling (providers/image_providers/bfl_flux_provider.py) -/

/-- The parsed `status` field of a BFL poll response: `"Ready"` (with the
optional `result.sample` URL), `"Error"` (with the optional `result.error`
message), `"Pending"`, `"Processing"`, or anything else. -/
inductive BFLStatus where
  | ready (sample : Option String)
  | failed (msg : Option String)
  | pending
  | processing
  | unknown (s : String)
deriving DecidableEq, Repr

/-- The default `max_attempts` of `_poll_for_result`. -/
def POLL_MAX_ATTEMPTS : Nat := 60

/-- `BFLFluxProvider._poll_for_result`: iterate `for attempt in
range(max_attempts)`, consulting the status endpoint once per attempt
(`statusAt` is the oracle for the poll response of each attempt, `download`
for `_download_as_base64`); a Ready status returns the downloaded base64
data (or `none` when the sample URL is missing), an Error status raises,
Pending/Processing/unknown sleep and continue, and exhausting the attempts
raises the timeout error. -/
def pollForResult (statusAt : Nat → BFLStatus) (download : String → String) :
    Nat → Nat → Except String (Option String)
  | _, 0 => .error "BFL generation timed out"
  | attempt, fuel + 1 =>
    match statusAt attempt with
    | .ready sample =>
      match sample with
      | some url => .ok (some (download url))
      | none => .ok none
    | .failed msg =>
        .error ("BFL generation error: " ++ msg.getD "Unknown error")
    | .pending => pollForResult statusAt download (attempt + 1) fuel
    | .processing => pollForResult statusAt download (attempt + 1) fuel
    | .unknown _ => pollForResult statusAt download (attempt + 1) fuel

/-- The uniform image response (`ImageGenerationResponse` dataclass,
`raw_response` omitted). -/
structure ImageResp where
  imageData : Option String
  imageUrl : Option String
  modelUsed : String
  provider : String
  error : Option String
  success : Bool
  requestId : String
deriving DecidableEq, Repr

/-- The failure response built by the `except` blocks of
`BFLFluxProvider.generate_image`. -/
def bflFailure (modelId e : String) : ImageResp :=
  { imageData := none, imageUrl := none, modelUsed := modelId,
    provider := "bfl_flux", error := some e, success := false,
    requestId := "" }

/-- `BFLFluxProvider.generate_image`, with the submission request modelled
by `submit` (the returned optional task id, or a raised error): submit, then
poll with the default bound; a poll exception (timeout or vendor error) or a
missing image is caught and normalised into a `success = false` response. -/
def bflGenerateImage (submit : Except String (Option String))
    (statusAt : Nat → BFLStatus) (download : String → String)
    (modelId : String) : ImageResp :=
  match submit with
  | .error e => bflFailure modelId e
  | .ok none => bflFailure modelId "No task ID returned from BFL API"
  | .ok (some _taskId) =>
    match pollForResult statusAt download 0 POLL_MAX_ATTEMPTS with
    | .error e => bflFailure modelId e
    | .ok none => bflFailure modelId "Failed to retrieve generated image"
    | .ok (some data) =>
      { imageData := some data, imageUrl := none, modelUsed := modelId,
        provider := "bfl_flux", error := none, success := true,
        requestId := "" }

theorem pollForResult_all_pending (statusAt : Nat → BFLStatus)
    (download : String → String) (a n : Nat)
    (h : ∀ i, a ≤ i → i < a + n → statusAt i = .pending) :
    pollForResult statusAt download a n =
      .error "BFL generation timed out" := by
  induction n generalizing a with
  | zero => rfl
  | succ n ih =>
    have ha : statusAt a = .pending := h a (Nat.le_refl a) (by omega)
    simp only [pollForResult, ha]
    exact ih (a + 1) (fun i h1 h2 => h i (by omega) (by omega))

theorem pollForResult_depends_on_window (statusAt statusAt2 : Nat → BFLStatus)
    (download : String → String) (a n : Nat)
    (h : ∀ i, a ≤ i → i < a + n → statusAt i = statusAt2 i) :
    pollForResult statusAt download a n =
      pollForResult statusAt2 download a n := by
  induction n generalizing a with
  | zero => rfl
  | succ n ih =>
    have ha : statusAt a = statusAt2 a := h a (Nat.le_refl a) (by omega)
    simp only [pollForResult, ha]
    cases statusAt2 a with
    | ready sample => rfl
    | failed msg => rfl
    | pending => exact ih (a + 1) (fun i h1 h2 => h i (by omega) (by omega))
    | processing =>
        exact ih (a + 1) (fun i h1 h2 => h i (by omega) (by omega))
    | unknown s =>
        exact ih (a + 1) (fun i h1 h2 => h i (by omega) (by omega))

/-- C7: if the status endpoint never returns a terminal status (Pending on
every attempt), the poll loop terminates after exactly the configured
maximum number of attempts with the timeout exception, which
`generate_image` converts into a `success = false` timeout response; and
the loop never performs more than the maximum number of poll requests (its
result depends only on the first `POLL_MAX_ATTEMPTS` status responses). -/
theorem bfl_poll_bounded_timeout (statusAt statusAt2 : Nat → BFLStatus)
    (download : String → String) (taskId modelId : String)
    (hpend : ∀ i, i < POLL_MAX_ATTEMPTS → statusAt i = .pending)
    (hagree : ∀ i, i < POLL_MAX_ATTEMPTS → statusAt2 i = statusAt i) :
    pollForResult statusAt download 0 POLL_MAX_ATTEMPTS =
      .error "BFL generation timed out" ∧
    bflGenerateImage (.ok (some taskId)) statusAt download modelId =
      bflFailure modelId "BFL generation timed out" ∧
    (bflGenerateImage (.ok (some taskId)) statusAt download
        modelId).success = false ∧
    pollForResult statusAt2 download 0 POLL_MAX_ATTEMPTS =
      pollForResult statusAt download 0 POLL_MAX_ATTEMPTS := by
  have hp := pollForResult_all_pending statusAt download 0 POLL_MAX_ATTEMPTS
    (fun i h1 h2 => hpend i (by omega))
  refine ⟨hp, ?_, ?_, ?_⟩
  · simp only [bflGenerateImage, hp]
  · simp only [bflGenerateImage, hp]
    rfl
  · exact pollForResult_depends_on_window statusAt2 statusAt download 0
      POLL_MAX_ATTEMPTS (fun i h1 h2 => hagree i (by omega))

theorem bfl_poll_bounded_timeout_witness :
    pollForResult (fun _ => .pending) (fun u => u) 0 POLL_MAX_ATTEMPTS =
      .error "BFL generation timed out" ∧
    bflGenerateImage (.ok (some "task-1")) (fun _ => .pending) (fun u => u)
        "flux-pro" =
      bflFailure "flux-pro" "BFL generation timed out" ∧
    (bflGenerateImage (.ok (some "task-1")) (fun _ => .pending) (fun u => u)
        "flux-pro").success = false ∧
    pollForResult (fun _ => .pending) (fun u => u) 0 POLL_MAX_ATTEMPTS =
      pollForResult (fun _ => .pending) (fun u => u) 0 POLL_MAX_ATTEMPTS :=
  bfl_poll_bounded_timeout (fun _ => .pending) (fun _ => .pending)
    (fun u => u) "task-1" "flux-pro" (fun _ _ => rfl) (fun _ _ => rfl)

/-! ## Model configuration endpoints (api/v1/models.py) -/

/-- `ModelConfigCreate` request schema. -/
structure ModelConfigCreateInput where
  provider : String
  modelId : String
  modelType : String
  isEnabled : Bool
  isDefault : Bool
deriving DecidableEq, Repr

/-- `ModelConfigUpdate` request schema: only `is_enabled` / `is_default`,
both optional (`exclude_unset`). -/
structure ModelConfigUpdateInput where
  isEnabled : Option Bool
  isDefault : Option Bool
deriving DecidableEq, Repr

/-- The `model_configs` table plus the primary-key sequence. -/
structure ModelsDB where
  nextId : Nat
  records : List ModelConfigRec
deriving Repr

/-- `create_model_config`: reject duplicates of (user, provider, model_id,
model_type) and unknown providers/models (HTTP 400, no state change); when
`is_default` is set, unset every other default of the same (user, type) in
the same transaction; insert the new row. -/
def createModelConfig (db : ModelsDB) (userId : Nat)
    (inp : ModelConfigCreateInput) : ModelsDB :=
  if db.records.any (fun r => r.userId == userId &&
      r.provider == inp.provider && r.modelId == inp.modelId &&
      r.modelType == inp.modelType) then
    db
  else if getModelsForProvider inp.provider inp.modelType = [] then
    db
  else if inp.modelId ∉ getModelsForProvider inp.provider inp.modelType then
    db
  else
    let records :=
      if inp.isDefault then
        db.records.map (fun r =>
          if r.userId == userId && r.modelType == inp.modelType &&
              r.isDefault then
            { r with isDefault := false }
          else r)
      else db.records
    { nextId := db.nextId + 1,
      records := records ++
        [{ id := db.nextId, userId := userId, provider := inp.provider,
           modelId := inp.modelId, modelType := inp.modelType,
           isEnabled := inp.isEnabled, isDefault := inp.isDefault }] }

/-- Applying the non-unset update fields to the found record
(`for field, value in update_data.items(): setattr(...)`). -/
def applyModelConfigUpdate (upd : ModelConfigUpdateInput)
    (r : ModelConfigRec) : ModelConfigRec :=
  { r with isEnabled := upd.isEnabled.getD r.isEnabled,
           isDefault := upd.isDefault.getD r.isDefault }

/-- The body of the unset loop of `update_model_config`: a row loses its
default flag when it belongs to the same user and capability type as the
record being updated, is currently default, and is not the updated record
itself. -/
def unsetOthers (userId : Nat) (modelType : String) (modelConfigId : Nat)
    (r : ModelConfigRec) : ModelConfigRec :=
  if r.userId == userId && r.modelType == modelType && r.isDefault &&
      r.id != modelConfigId then
    { r with isDefault := false }
  else r

/-- Applying the update to the found record and only to it. -/
def setSelfUpd (userId modelConfigId : Nat) (upd : ModelConfigUpdateInput)
    (r : ModelConfigRec) : ModelConfigRec :=
  if r.id == modelConfigId && r.userId == userId then
    applyModelConfigUpdate upd r
  else r

/-- `update_model_config`: 404 (no state change) when the id is not owned by
the user; when the update sets `is_default` to true, unset every other
default of the same (user, type of the found record), excluding the record
itself, in the same transaction; then apply the update fields. -/
def updateModelConfig (db : ModelsDB) (userId modelConfigId : Nat)
    (upd : ModelConfigUpdateInput) : ModelsDB :=
  match db.records.find? (fun r => r.id == modelConfigId &&
      r.userId == userId) with
  | none => db
  | some modelConfig =>
    let unsetRecords :=
      if upd.isDefault = some true then
        db.records.map (unsetOthers userId modelConfig.modelType
          modelConfigId)
      else db.records
    { db with records :=
        unsetRecords.map (setSelfUpd userId modelConfigId upd) }

/-- A create or update call against the model-configuration endpoints. -/
inductive ModelOp where
  | create (userId : Nat) (inp : ModelConfigCreateInput)
  | update (userId modelConfigId : Nat) (upd : ModelConfigUpdateInput)
deriving Repr

def applyModelOp (db : ModelsDB) : ModelOp → ModelsDB
  | .create userId inp => createModelConfig db userId inp
  | .update userId modelConfigId upd =>
      updateModelConfig db userId modelConfigId upd

def applyModelOps (db : ModelsDB) (ops : List ModelOp) : ModelsDB :=
  ops.foldl applyModelOp db

def emptyModelsDB : ModelsDB := ⟨0, []⟩

/-- `is_default` row of a given (user, capability-type). -/
def isDefaultFor (u : Nat) (t : String) (r : ModelConfigRec) : Bool :=
  r.userId == u && r.modelType == t && r.isDefault

/-- The invariant: at most one default per (user, capability-type). -/
def defaultUnique (records : List ModelConfigRec) : Prop :=
  ∀ u t, records.countP (isDefaultFor u t) ≤ 1

/-- Well-formedness: primary keys are distinct and below the sequence
value, and the default invariant holds. -/
def ModelsDB.WF (db : ModelsDB) : Prop :=
  (db.records.map (fun r => r.id)).Nodup ∧
  (∀ r ∈ db.records, r.id < db.nextId) ∧
  defaultUnique db.records

theorem countP_id_le_one (records : List ModelConfigRec)
    (hnodup : (records.map (fun r => r.id)).Nodup) (theId : Nat) :
    records.countP (fun r => r.id == theId) ≤ 1 := by
  have h1 : records.countP (fun r => r.id == theId) =
      (records.map (fun r => r.id)).countP (fun x => x == theId) := by
    rw [List.countP_map]
    rfl
  rw [h1, ← List.count_eq_countP]
  exact List.nodup_iff_count_le_one.mp hnodup theId

theorem wf_insert (db : ModelsDB) (records2 : List ModelConfigRec)
    (new : ModelConfigRec)
    (hids : records2.map (fun r => r.id) = db.records.map (fun r => r.id))
    (hdb : db.WF) (hnewId : new.id = db.nextId)
    (hdef2 : ∀ u t, records2.countP (isDefaultFor u t) +
      (if isDefaultFor u t new then 1 else 0) ≤ 1) :
    ModelsDB.WF ⟨db.nextId + 1, records2 ++ [new]⟩ := by
  obtain ⟨hnodup, hbound, _⟩ := hdb
  refine ⟨?_, ?_, ?_⟩
  · rw [List.map_append, hids]
    rw [List.nodup_append]
    refine ⟨hnodup, by simp, ?_⟩
    intro x hx hxa
    simp only [List.map_cons, List.map_nil, List.mem_singleton] at hxa
    obtain ⟨r, hr, rfl⟩ := List.mem_map.mp hx
    have := hbound r hr
    omega
  · intro r hr
    rcases List.mem_append.mp hr with hmem | hmem
    · have hidmem : r.id ∈ db.records.map (fun r => r.id) := by
        rw [← hids]
        exact List.mem_map_of_mem _ hmem
      obtain ⟨r0, hr0, hid0⟩ := List.mem_map.mp hidmem
      have := hbound r0 hr0
      show r.id < db.nextId + 1
      omega
    · simp only [List.mem_singleton] at hmem
      subst hmem
      show r.id < db.nextId + 1
      omega
  · intro u t
    rw [List.countP_append]
    have hone : [new].countP (isDefaultFor u t) =
        if isDefaultFor u t new then 1 else 0 := by
      simp [List.countP_cons]
    rw [hone]
    exact hdef2 u t

theorem createModelConfig_WF (db : ModelsDB) (userId : Nat)
    (inp : ModelConfigCreateInput) (h : db.WF) :
    (createModelConfig db userId inp).WF := by
  obtain ⟨hnodup, hbound, hdef⟩ := h
  unfold createModelConfig
  split
  · exact ⟨hnodup, hbound, hdef⟩
  split
  · exact ⟨hnodup, hbound, hdef⟩
  split
  · exact ⟨hnodup, hbound, hdef⟩
  by_cases hd : inp.isDefault = true
  · rw [if_pos hd]
    refine wf_insert db _ _ ?_ ⟨hnodup, hbound, hdef⟩ rfl ?_
    · rw [List.map_map]
      refine List.map_congr_left ?_
      intro r _
      show ((if r.userId == userId && r.modelType == inp.modelType &&
          r.isDefault then { r with isDefault := false } else r)).id = r.id
      split <;> rfl
    · intro u t
      by_cases hcase : u = userId ∧ t = inp.modelType
      · rw [hcase.1, hcase.2]
        have hzero : (db.records.map (fun r =>
            if r.userId == userId && r.modelType == inp.modelType &&
                r.isDefault then { r with isDefault := false }
            else r)).countP (isDefaultFor userId inp.modelType) = 0 := by
          rw [List.countP_map]
          rw [List.countP_eq_zero]
          intro r _
          show ¬ (isDefaultFor userId inp.modelType
            (if r.userId == userId && r.modelType == inp.modelType &&
                r.isDefault then { r with isDefault := false } else r)) = true
          by_cases hcnd : (r.userId == userId &&
              r.modelType == inp.modelType && r.isDefault) = true
          · rw [if_pos hcnd]
            simp [isDefaultFor]
          · rw [if_neg hcnd]
            exact fun hpred => hcnd hpred
        rw [hzero]
        have hnew : isDefaultFor userId inp.modelType
            { id := db.nextId, userId := userId, provider := inp.provider,
              modelId := inp.modelId, modelType := inp.modelType,
              isEnabled := inp.isEnabled, isDefault := inp.isDefault } =
              true := by
          simp [isDefaultFor, hd]
        rw [if_pos hnew]
      · have hnew : isDefaultFor u t
            { id := db.nextId, userId := userId, provider := inp.provider,
              modelId := inp.modelId, modelType := inp.modelType,
              isEnabled := inp.isEnabled, isDefault := inp.isDefault } =
              false := by
          rcases not_and_or.mp hcase with hne | hne <;>
            simp [isDefaultFor, Ne.symm hne]
        rw [hnew]
        simp only [Bool.false_eq_true, if_false, Nat.add_zero]
        have hle : (db.records.map (fun r =>
            if r.userId == userId && r.modelType == inp.modelType &&
                r.isDefault then { r with isDefault := false }
            else r)).countP (isDefaultFor u t) ≤
            db.records.countP (isDefaultFor u t) := by
          rw [List.countP_map]
          refine List.countP_mono_left ?_
          intro r _ hpred
          revert hpred
          show (isDefaultFor u t (if r.userId == userId &&
              r.modelType == inp.modelType && r.isDefault then
              { r with isDefault := false } else r)) = true →
            isDefaultFor u t r = true
          split
          · simp [isDefaultFor]
          · exact id
        exact le_trans hle (hdef u t)
  · rw [if_neg hd]
    refine wf_insert db _ _ rfl ⟨hnodup, hbound, hdef⟩ rfl ?_
    intro u t
    have hnew : isDefaultFor u t
        { id := db.nextId, userId := userId, provider := inp.provider,
          modelId := inp.modelId, modelType := inp.modelType,
          isEnabled := inp.isEnabled, isDefault := inp.isDefault } =
          false := by
      simp only [Bool.not_eq_true] at hd
      simp [isDefaultFor, hd]
    rw [hnew]
    simp only [Bool.false_eq_true, if_false, Nat.add_zero]
    exact hdef u t

theorem unsetOthers_id (uid : Nat) (mt : String) (mid : Nat)
    (r : ModelConfigRec) : (unsetOthers uid mt mid r).id = r.id := by
  unfold unsetOthers
  split <;> rfl

theorem unsetOthers_userId (uid : Nat) (mt : String) (mid : Nat)
    (r : ModelConfigRec) : (unsetOthers uid mt mid r).userId = r.userId := by
  unfold unsetOthers
  split <;> rfl

theorem unsetOthers_isDefaultFor_imp (uid : Nat) (mt : String) (mid : Nat)
    (r : ModelConfigRec) (u : Nat) (t : String)
    (h : isDefaultFor u t (unsetOthers uid mt mid r) = true) :
    isDefaultFor u t r = true := by
  unfold unsetOthers at h
  split at h
  · simp [isDefaultFor] at h
  · exact h

theorem setSelfUpd_id (uid mid : Nat) (upd : ModelConfigUpdateInput)
    (r : ModelConfigRec) : (setSelfUpd uid mid upd r).id = r.id := by
  unfold setSelfUpd applyModelConfigUpdate
  split <;> rfl

theorem setSelfUpd_not_default_imp (uid mid : Nat)
    (upd : ModelConfigUpdateInput) (r : ModelConfigRec) (u : Nat) (t : String)
    (hupd : upd.isDefault ≠ some true)
    (h : isDefaultFor u t (setSelfUpd uid mid upd r) = true) :
    isDefaultFor u t r = true := by
  unfold setSelfUpd at h
  split at h
  · unfold applyModelConfigUpdate at h
    cases hud : upd.isDefault with
    | none =>
        rw [hud] at h
        simpa [isDefaultFor] using h
    | some b =>
        cases b
        · rw [hud] at h
          simp [isDefaultFor] at h
        · exact absurd hud hupd
  · exact h

theorem updateModelConfig_WF (db : ModelsDB) (userId modelConfigId : Nat)
    (upd : ModelConfigUpdateInput) (h : db.WF) :
    (updateModelConfig db userId modelConfigId upd).WF := by
  obtain ⟨hnodup, hbound, hdef⟩ := h
  unfold updateModelConfig
  cases hfind : db.records.find? (fun r => r.id == modelConfigId &&
      r.userId == userId) with
  | none => exact ⟨hnodup, hbound, hdef⟩
  | some mc =>
    have hmcMem : mc ∈ db.records := List.mem_of_find?_eq_some hfind
    have hmcCond := List.find?_some hfind
    have hmcId : mc.id = modelConfigId :=
      eq_of_beq ((Bool.and_eq_true _ _).mp hmcCond).1
    have hmcUser : mc.userId = userId :=
      eq_of_beq ((Bool.and_eq_true _ _).mp hmcCond).2
    dsimp only
    by_cases hdTrue : upd.isDefault = some true
    · rw [if_pos hdTrue]
      rw [List.map_map]
      refine ⟨?_, ?_, ?_⟩
      · have hids : db.records.map ((fun r => r.id) ∘
            (setSelfUpd userId modelConfigId upd ∘
              unsetOthers userId mc.modelType modelConfigId)) =
            db.records.map (fun r => r.id) := by
          refine List.map_congr_left ?_
          intro r _
          show (setSelfUpd userId modelConfigId upd
            (unsetOthers userId mc.modelType modelConfigId r)).id = r.id
          rw [setSelfUpd_id, unsetOthers_id]
        rw [List.map_map, hids]
        exact hnodup
      · intro r hr
        obtain ⟨r0, hr0, hr0eq⟩ := List.mem_map.mp hr
        have : r.id = r0.id := by
          rw [← hr0eq]
          show (setSelfUpd userId modelConfigId upd
            (unsetOthers userId mc.modelType modelConfigId r0)).id = r0.id
          rw [setSelfUpd_id, unsetOthers_id]
        have := hbound r0 hr0
        show r.id < db.nextId
        omega
      · intro u t
        show ((db.records.map _).countP (isDefaultFor u t)) ≤ 1
        rw [List.countP_map]
        by_cases hcase : u = userId ∧ t = mc.modelType
        · rw [hcase.1, hcase.2]
          show db.records.countP (fun r => isDefaultFor userId mc.modelType
            (setSelfUpd userId modelConfigId upd
              (unsetOthers userId mc.modelType modelConfigId r))) ≤ 1
          refine le_trans (List.countP_mono_left ?_)
            (countP_id_le_one db.records hnodup modelConfigId)
          intro r _ hpred
          show (r.id == modelConfigId) = true
          have hpred2 : isDefaultFor userId mc.modelType
              (setSelfUpd userId modelConfigId upd
                (unsetOthers userId mc.modelType modelConfigId r)) =
              true := hpred
          by_cases hself : ((unsetOthers userId mc.modelType modelConfigId
              r).id == modelConfigId &&
              (unsetOthers userId mc.modelType modelConfigId r).userId ==
                userId) = true
          · have : (r.id == modelConfigId) = true := by
              have h1 := ((Bool.and_eq_true _ _).mp hself).1
              rw [unsetOthers_id] at h1
              exact h1
            exact this
          · unfold setSelfUpd at hpred2
            rw [if_neg hself] at hpred2
            have hpredr := unsetOthers_isDefaultFor_imp _ _ _ _ _ _ hpred2
            obtain ⟨hu, htm, hdft⟩ : r.userId = userId ∧
                r.modelType = mc.modelType ∧ r.isDefault = true := by
              have := hpredr
              unfold isDefaultFor at this
              rw [Bool.and_eq_true, Bool.and_eq_true] at this
              exact ⟨eq_of_beq this.1.1, eq_of_beq this.1.2, this.2⟩
            by_contra hid
            have hidne : (r.id != modelConfigId) = true := by
              simp only [bne_iff_ne, ne_eq]
              intro heq
              exact hid (beq_iff_eq.mpr heq)
            have hcnd : (r.userId == userId &&
                r.modelType == mc.modelType && r.isDefault &&
                r.id != modelConfigId) = true := by
              rw [Bool.and_eq_true, Bool.and_eq_true, Bool.and_eq_true]
              exact ⟨⟨⟨beq_iff_eq.mpr hu, beq_iff_eq.mpr htm⟩, hdft⟩, hidne⟩
            have : (unsetOthers userId mc.modelType modelConfigId
                r).isDefault = false := by
              unfold unsetOthers
              rw [if_pos hcnd]
            unfold unsetOthers at hpred2
            rw [if_pos hcnd] at hpred2
            simp [isDefaultFor] at hpred2
        · show db.records.countP (fun r => isDefaultFor u t
            (setSelfUpd userId modelConfigId upd
              (unsetOthers userId mc.modelType modelConfigId r))) ≤ 1
          refine le_trans (List.countP_mono_left ?_) (hdef u t)
          intro r hrmem hpred
          have hpred2 : isDefaultFor u t
              (setSelfUpd userId modelConfigId upd
                (unsetOthers userId mc.modelType modelConfigId r)) =
              true := hpred
          show isDefaultFor u t r = true
          by_cases hself : ((unsetOthers userId mc.modelType modelConfigId
              r).id == modelConfigId &&
              (unsetOthers userId mc.modelType modelConfigId r).userId ==
                userId) = true
          · exfalso
            have hrid : r.id = modelConfigId := by
              have h1 := ((Bool.and_eq_true _ _).mp hself).1
              rw [unsetOthers_id] at h1
              exact eq_of_beq h1
            have hrmc : r = mc :=
              List.inj_on_of_nodup_map hnodup hrmem hmcMem
                (by rw [hrid, hmcId])
            unfold setSelfUpd at hpred2
            rw [if_pos hself] at hpred2
            unfold applyModelConfigUpdate at hpred2
            rw [hdTrue] at hpred2
            have : (unsetOthers userId mc.modelType modelConfigId
                r).userId = u ∧ (unsetOthers userId mc.modelType
                modelConfigId r).modelType = t := by
              unfold isDefaultFor at hpred2
              rw [Bool.and_eq_true, Bool.and_eq_true] at hpred2
              exact ⟨eq_of_beq hpred2.1.1, eq_of_beq hpred2.1.2⟩
            obtain ⟨hu2, ht2⟩ := this
            rw [unsetOthers_userId] at hu2
            have ht3 : r.modelType = t := by
              have : (unsetOthers userId mc.modelType modelConfigId
                  r).modelType = r.modelType := by
                unfold unsetOthers
                split <;> rfl
              rw [this] at ht2
              exact ht2
            apply hcase
            constructor
            · rw [← hu2, hrmc, hmcUser]
            · rw [← ht3, hrmc]
          · unfold setSelfUpd at hpred2
            rw [if_neg hself] at hpred2
            exact unsetOthers_isDefaultFor_imp _ _ _ _ _ _ hpred2
    · rw [if_neg hdTrue]
      refine ⟨?_, ?_, ?_⟩
      · have hids : db.records.map ((fun r => r.id) ∘
            setSelfUpd userId modelConfigId upd) =
            db.records.map (fun r => r.id) := by
          refine List.map_congr_left ?_
          intro r _
          exact setSelfUpd_id userId modelConfigId upd r
        rw [List.map_map, hids]
        exact hnodup
      · intro r hr
        obtain ⟨r0, hr0, hr0eq⟩ := List.mem_map.mp hr
        have : r.id = r0.id := by
          rw [← hr0eq]
          exact setSelfUpd_id userId modelConfigId upd r0
        have := hbound r0 hr0
        show r.id < db.nextId
        omega
      · intro u t
        show ((db.records.map _).countP (isDefaultFor u t)) ≤ 1
        rw [List.countP_map]
        show db.records.countP (fun r => isDefaultFor u t
          (setSelfUpd userId modelConfigId upd r)) ≤ 1
        refine le_trans (List.countP_mono_left ?_) (hdef u t)
        intro r _ hpred
        exact setSelfUpd_not_default_imp userId modelConfigId upd r u t
          hdTrue hpred

theorem applyModelOp_WF (db : ModelsDB) (op : ModelOp) (h : db.WF) :
    (applyModelOp db op).WF := by
  cases op with
  | create userId inp => exact createModelConfig_WF db userId inp h
  | update userId modelConfigId upd =>
      exact updateModelConfig_WF db userId modelConfigId upd h

theorem applyModelOps_WF (db : ModelsDB) (ops : List ModelOp) (h : db.WF) :
    (applyModelOps db ops).WF := by
  induction ops generalizing db with
  | nil => exact h
  | cons op ops ih => exact ih (applyModelOp db op) (applyModelOp_WF db op h)

theorem emptyModelsDB_WF : emptyModelsDB.WF := by
  refine ⟨List.nodup_nil, ?_, ?_⟩
  · intro r hr
    cases hr
  · intro u t
    exact Nat.zero_le 1

/-- C8: after any sequence of model-configuration create and update
operations (starting from an empty table), at most one configuration has
`is_default = true` per (user, capability-type): whenever an operation sets
the default flag, all other defaults for that user and type are unset in the
same transaction. -/
theorem model_config_at_most_one_default (ops : List ModelOp) (u : Nat)
    (t : String) :
    ((applyModelOps emptyModelsDB ops).records.countP (isDefaultFor u t)) ≤
      1 :=
  (applyModelOps_WF emptyModelsDB ops emptyModelsDB_WF).2.2 u t
